import Mathlib

/-!
# Verification of the C64Claude bridge against its specification

Shallow embedding of the two bridge scripts
(`c64claudebridge.py` and `c64llamacppbridge.py`): the inbound polling
state machine (`check_for_messages`), the chunk codec
(`send_message_to_c64` / `read_outgoing_message`), the thinking-tag
extraction (`extract_thinking`), the retry/backoff loops of the two
generation clients (`send_message`), the conversation history
(`add_message_to_history`), and the error path of
`process_user_message` including `sanitize_for_c64`.

Python strings are modelled as `List Char`; raw mailbox bytes as
`List Nat` (each 0–255); times in milliseconds as `Nat`.
-/

namespace C64Bridge

/-! ## Python string primitives -/

/-- Whitespace characters recognised by Python `str.strip()` for ASCII text
(space, tab, linefeed, return, vertical tab, form feed). -/
def pyIsSpace (c : Char) : Bool :=
  c == ' ' || c == '\t' || c == '\n' || c == '\r' || c == '\x0b' || c == '\x0c'

/-- Python `str.strip()`: remove leading and trailing whitespace. -/
def pyStrip (s : List Char) : List Char :=
  ((s.dropWhile pyIsSpace).reverse.dropWhile pyIsSpace).reverse

/-- `pat in s`: substring test, as used by Python's `in` on strings. -/
def occursB (pat : List Char) : List Char → Bool
  | [] => pat.isPrefixOf ([] : List Char)
  | c :: rest => pat.isPrefixOf (c :: rest) || occursB pat rest

/-- Find the first occurrence of `pat` in `s`, returning the text before the
occurrence and the text after it (so `s = before ++ pat ++ after`).  This is
the primitive behind the re-based scans of `extract_thinking`. -/
def splitFirst (pat : List Char) : List Char → Option (List Char × List Char)
  | [] => if pat.isPrefixOf ([] : List Char) then some ([], []) else none
  | c :: rest =>
    if pat.isPrefixOf (c :: rest) then some ([], (c :: rest).drop pat.length)
    else
      match splitFirst pat rest with
      | some (b, a) => some (c :: b, a)
      | none => none

/-! ## Inbound poller (`check_for_messages`, both bridges)

The body of the polling loop, lines 434–548 of `c64claudebridge.py`
(identically lines 601–715 of `c64llamacppbridge.py`).  One call of
`pollStep` is one loop iteration that reached the length read: the
observation records the length byte, the status byte, the payload bytes
the transport would return, and `time.time()` in milliseconds.  The
output is the logical message handed to the orchestrator at this
iteration, if any.  The transport writes (zeroing the length field after
a payload read, resetting the status byte after a delivery) happen
exactly at a `some` output. -/

/-- `DEBOUNCE_TIME = 0.5` seconds, in milliseconds. -/
def DEBOUNCE_TIME : Nat := 500

/-- One observation of the outgoing mailbox by the poll loop. -/
structure Obs where
  length : Nat
  status : Nat
  payload : List Nat
  time : Nat
deriving DecidableEq, Repr

/-- The loop-carried variables of `check_for_messages`:
`full_message`, `last_change_time`, `last_data_length`. -/
structure PollState where
  full_message : List Nat
  last_change_time : Nat
  last_data_length : Nat
deriving DecidableEq, Repr

/-- State at the top of the loop: `full_message = ""`,
`last_change_time = 0`, `last_data_length = 0`. -/
def initPollState : PollState := ⟨[], 0, 0⟩

/-- One iteration of the polling loop.  Mirrors, in order: the
`length > 0 and length <= 255` test, the debounce-reset condition
`length != last_data_length or (status != 0 and status != 2)`, the
`current_time - last_change_time < DEBOUNCE_TIME` wait, the payload read
`data[:length]` appended to `full_message`, the junk strip
`full_message.replace('ÿ', '')` (chr 255), the seal test
`status == 0 or status == 2`, and the `else:` branch that clears the
debounce variables when the length byte is 0. -/
def pollStep (st : PollState) (o : Obs) : PollState × Option (List Nat) :=
  if 0 < o.length ∧ o.length ≤ 255 then
    if o.length ≠ st.last_data_length ∨ (o.status ≠ 0 ∧ o.status ≠ 2) then
      ({ st with last_change_time := o.time, last_data_length := o.length }, none)
    else if o.time - st.last_change_time < DEBOUNCE_TIME then
      (st, none)
    else
      let full := (st.full_message ++ o.payload.take o.length).filter (fun b => b ≠ 255)
      if o.status = 0 ∨ o.status = 2 then
        (⟨[], 0, 0⟩, some full)
      else
        ({ st with full_message := full }, none)
  else
    if 0 < st.last_data_length then
      ({ st with last_data_length := 0, last_change_time := 0 }, none)
    else
      (st, none)

/-- Run the polling loop over a list of observations, collecting the
logical messages delivered, in order. -/
def pollRun : PollState → List Obs → PollState × List (List Nat)
  | st, [] => (st, [])
  | st, o :: os =>
    let p := pollStep st o
    let r := pollRun p.1 os
    (r.1, p.2.toList ++ r.2)

/-! ## Thinking extraction (`extract_thinking`, `c64llamacppbridge.py` 351–416)

The three regex passes are embedded as executable scans.  The recursions
consume at least one tag (≥ 7 characters) per step, so a fuel of the
input length is an upper bound on the number of steps; each `…Go`
function is the exact unrolling of the corresponding Python scan. -/

def thinkOpen : List Char := "<think>".data

def thinkClose : List Char := "</think>".data

/-- Pass 1: `re.findall / re.sub` of `r'<think>(.*?)</think>'` with
`re.DOTALL`.  The leftmost match starts at the first `<think>` and its
lazy group runs to the first `</think>` after it; scanning resumes after
the match.  Returns the captured groups and the input with the matched
spans removed (`think_pattern.sub('', response_text)`). -/
def pass1Go : Nat → List Char → List (List Char) × List Char
  | 0, s => ([], s)
  | fuel + 1, s =>
    match splitFirst thinkOpen s with
    | none => ([], s)
    | some (pre, rest) =>
      match splitFirst thinkClose rest with
      | none => ([], s)
      | some (content, rest2) =>
        let r := pass1Go fuel rest2
        (content :: r.1, pre ++ r.2)

def pass1 (s : List Char) : List (List Char) × List Char := pass1Go s.length s

/-- Pass 2: `re.finditer(r'</think>', …)`.  For each orphaned `</think>`,
the stripped text since the previous match end becomes a thinking
fragment; spans with a nonempty fragment are removed, spans whose
preceding text strips to empty are kept (their tag is only removed by
the final tag cleanup). -/
def pass2Go : Nat → List Char → List (List Char) × List Char
  | 0, s => ([], s)
  | fuel + 1, s =>
    match splitFirst thinkClose s with
    | none => ([], s)
    | some (pre, rest) =>
      let fragment := pyStrip pre
      let r := pass2Go fuel rest
      if fragment = [] then (r.1, pre ++ thinkClose ++ r.2)
      else (fragment :: r.1, r.2)

def pass2 (s : List Char) : List (List Char) × List Char := pass2Go s.length s

/-- Pass 3: `re.finditer(r'<think>(.*?)(?=<think>|$)', …)` with
`re.DOTALL`.  Each match starts at a `<think>`; its lazy group runs to
the next `<think>` (not consumed, thanks to the lookahead) or to the end
of the text.  Matches whose stripped group is nonempty are removed. -/
def pass3Go : Nat → List Char → List (List Char) × List Char
  | 0, s => ([], s)
  | fuel + 1, s =>
    match splitFirst thinkOpen s with
    | none => ([], s)
    | some (pre, rest) =>
      match splitFirst thinkOpen rest with
      | none =>
        let fragment := pyStrip rest
        if fragment = [] then ([], s) else ([fragment], pre)
      | some (content, rest2) =>
        let fragment := pyStrip content
        let r := pass3Go fuel (thinkOpen ++ rest2)
        if fragment = [] then (r.1, pre ++ thinkOpen ++ content ++ r.2)
        else (fragment :: r.1, pre ++ r.2)

def pass3 (s : List Char) : List (List Char) × List Char := pass3Go s.length s

/-- Final cleanup `re.sub(r'<think>|</think>', '', …)`: remove every
remaining tag, scanning left to right. -/
def stripTagsGo : Nat → List Char → List Char
  | 0, s => s
  | _ + 1, [] => []
  | fuel + 1, c :: rest =>
    if thinkOpen.isPrefixOf (c :: rest) then stripTagsGo fuel ((c :: rest).drop 7)
    else if thinkClose.isPrefixOf (c :: rest) then stripTagsGo fuel ((c :: rest).drop 8)
    else c :: stripTagsGo fuel rest

def stripTags (s : List Char) : List Char := stripTagsGo s.length s

/-- `extract_thinking(response_text)`: the ordered three passes, the
final tag cleanup with `.strip()`, and `' '.join(thinking_fragments)`
(`None` when no fragment was collected). -/
def extract_thinking (s : List Char) : Option (List Char) × List Char :=
  let r1 := pass1 s
  let r2 := pass2 r1.2
  let r3 := pass3 r2.2
  let cleaned := pyStrip (stripTags r3.2)
  let fragments := r1.1 ++ r2.1 ++ r3.1
  (if fragments = [] then none else some (List.intercalate [' '] fragments), cleaned)

/-! ## Generation clients (`ClaudeApiClient.send_message`,
`LlamaCppClient.send_message`)

Each iteration of the `while True:` loop issues exactly one
`requests.post`, so a client run is modelled by recursion over the list
of successive service behaviours: a completed HTTP response (ok or not)
or an exception raised by the transport itself.  The trace records the
result, the number of requests issued and the backoff sleeps performed,
in milliseconds.  `none` means the supplied behaviour list was shorter
than the run (never the case in the theorems below). -/

/-- Result of one `requests.post` to the Claude API: `ok body` is a
successful response (the parsed JSON, kept abstract), `err code body` a
non-ok response with its status code and text, `exn msg` an exception
raised by the transport with its `str(ex)`. -/
inductive ClaudeResp where
  | ok (body : List Char)
  | err (code : Nat) (body : List Char)
  | exn (msg : List Char)
deriving DecidableEq, Repr

deriving instance DecidableEq for Except

/-- Outcome of a client call: `Except` error-or-result, total number of
requests issued, and the list of backoff sleeps in ms. -/
structure SendTrace where
  result : Except (List Char) (List Char)
  requests : Nat
  sleeps : List Nat
deriving DecidableEq, Repr

/-- `should_retry` of `ClaudeApiClient.send_message` (lines 186–190):
status 429, status 529, or `"overloaded_error" in error_content`. -/
def claudeShouldRetry (code : Nat) (body : List Char) : Bool :=
  code == 429 || code == 529 || occursB "overloaded_error".data body

/-- `str(ex)` for the in-loop raise
`f"Claude API error: {response.status_code} - {error_content}"`. -/
def claudeExMsg (code : Nat) (body : List Char) : List Char :=
  ("Claude API error: " ++ Nat.repr code ++ " - ").data ++ body

/-- The `while True:` loop of `ClaudeApiClient.send_message`
(lines 170–210), with `max_retries = 3` and
`initial_retry_delay_ms = 1000`.  A non-ok response either retries (with
a sleep of the current delay, then doubling) or raises; the raise is
caught by the `except` clause, which re-raises as terminal when
`retry_count >= max_retries or "overloaded" not in str(ex)` and
otherwise re-enters the loop without sleeping. -/
def claudeSendLoop : List ClaudeResp → Nat → Nat → Nat → List Nat → Option SendTrace
  | [], _, _, _, _ => none
  | .ok body :: _, _, _, reqs, sleeps => some ⟨.ok body, reqs + 1, sleeps⟩
  | .err code body :: rest, retry_count, delay_ms, reqs, sleeps =>
    if claudeShouldRetry code body = true ∧ retry_count < 3 then
      claudeSendLoop rest (retry_count + 1) (delay_ms * 2) (reqs + 1) (sleeps ++ [delay_ms])
    else
      if 3 ≤ retry_count ∨ ¬ occursB "overloaded".data (claudeExMsg code body) = true then
        some ⟨.error ("Error communicating with Claude API: ".data ++ claudeExMsg code body),
              reqs + 1, sleeps⟩
      else
        claudeSendLoop rest retry_count delay_ms (reqs + 1) sleeps
  | .exn msg :: rest, retry_count, delay_ms, reqs, sleeps =>
    if 3 ≤ retry_count ∨ ¬ occursB "overloaded".data msg = true then
      some ⟨.error ("Error communicating with Claude API: ".data ++ msg), reqs + 1, sleeps⟩
    else
      claudeSendLoop rest retry_count delay_ms (reqs + 1) sleeps

/-- `ClaudeApiClient.send_message` entry: `retry_count = 0`,
`delay_ms = initial_retry_delay_ms = 1000`. -/
def claudeSend (svc : List ClaudeResp) : Option SendTrace :=
  claudeSendLoop svc 0 1000 0 []

/-- One line of the llama.cpp streaming response: a `data: {json}` line
carrying an optional `content` fragment and the `stop` flag, or any
other (skipped) line. -/
inductive SSE where
  | data (content : Option (List Char)) (stop : Bool)
  | other
deriving DecidableEq, Repr

/-- Result of one `requests.post` to the llama.cpp server. -/
inductive LlamaResp where
  | ok (lines : List SSE)
  | err (code : Nat) (body : List Char)
  | exn (msg : List Char)
deriving DecidableEq, Repr

/-- The `for line in response.iter_lines():` assembly (lines 239–256):
append each `content` fragment to `full_response`, return it when a line
has `stop` set, or when the stream ends. -/
def assembleStream : List SSE → List Char → List Char
  | [], acc => acc
  | .other :: rest, acc => assembleStream rest acc
  | .data c stop :: rest, acc =>
    let acc2 := match c with | some s => acc ++ s | none => acc
    if stop then acc2 else assembleStream rest acc2

/-- `should_retry` of `LlamaCppClient.send_message` (lines 224–227):
status 429 or status 503. -/
def llamaShouldRetry (code : Nat) : Bool :=
  code == 429 || code == 503

/-- `str(ex)` for the in-loop raise
`f"llama.cpp API error: {response.status_code} - {error_content}"`. -/
def llamaExMsg (code : Nat) (body : List Char) : List Char :=
  ("llama.cpp API error: " ++ Nat.repr code ++ " - ").data ++ body

/-- The `while True:` loop of `LlamaCppClient.send_message`
(lines 204–265).  `full_response` is initialised before the loop and
persists across retries.  The `except` clause catches every exception —
including the client's own raise for a non-retryable HTTP error — and
retries it (incrementing `retry_count`, sleeping, doubling the delay)
until `retry_count >= max_retries`, when it re-raises as terminal. -/
def llamaSendLoop : List LlamaResp → Nat → Nat → List Char → Nat → List Nat → Option SendTrace
  | [], _, _, _, _, _ => none
  | .ok lines :: _, _, _, full, reqs, sleeps =>
    some ⟨.ok (assembleStream lines full), reqs + 1, sleeps⟩
  | .err code body :: rest, retry_count, delay_ms, full, reqs, sleeps =>
    if llamaShouldRetry code = true ∧ retry_count < 3 then
      llamaSendLoop rest (retry_count + 1) (delay_ms * 2) full (reqs + 1) (sleeps ++ [delay_ms])
    else
      if 3 ≤ retry_count then
        some ⟨.error ("Error communicating with llama.cpp server: ".data ++ llamaExMsg code body),
              reqs + 1, sleeps⟩
      else
        llamaSendLoop rest (retry_count + 1) (delay_ms * 2) full (reqs + 1) (sleeps ++ [delay_ms])
  | .exn msg :: rest, retry_count, delay_ms, full, reqs, sleeps =>
    if 3 ≤ retry_count then
      some ⟨.error ("Error communicating with llama.cpp server: ".data ++ msg), reqs + 1, sleeps⟩
    else
      llamaSendLoop rest (retry_count + 1) (delay_ms * 2) full (reqs + 1) (sleeps ++ [delay_ms])

/-- `LlamaCppClient.send_message` entry: `retry_count = 0`,
`delay_ms = 1000`, `full_response = ""`. -/
def llamaSend (svc : List LlamaResp) : Option SendTrace :=
  llamaSendLoop svc 0 1000 [] 0 []

/-! ## Conversation history (`add_message_to_history`, both bridges) -/

/-- One conversation turn: the `{"role": …, "content": …}` dict of
`c64llamacppbridge.py` (the Claude variant wraps `content` in a list of
text blocks; the trimming logic is identical). -/
structure Turn where
  role : List Char
  content : List Char
deriving DecidableEq, Repr

def MAX_HISTORY_LENGTH : Nat := 10

/-- `add_message_to_history(role, content)`: append the new message,
then `history = history[-MAX_HISTORY_LENGTH:]` when the length exceeds
the cap. -/
def add_message_to_history (history : List Turn) (role content : List Char) : List Turn :=
  let h2 := history ++ [⟨role, content⟩]
  if MAX_HISTORY_LENGTH < h2.length then h2.drop (h2.length - MAX_HISTORY_LENGTH) else h2

/-! ## Mailbox chunk codec (`send_message_to_c64` lines 272–279,
`read_outgoing_message` lines 366–389) -/

/-- Encoding: `message_bytes = [len(message)]` followed by
`ord(c) & 0xFF` for each character. -/
def encodeChunk (msg : List Nat) : List Nat :=
  msg.length :: msg.map (fun b => b % 256)

/-- Decoding: read the length byte, then take exactly `length` payload
bytes (`data[:length]`, each mapped back through `chr`). -/
def decodeChunk (chunk : List Nat) : List Nat :=
  chunk.tail.take (chunk.headD 0)

/-! ## Text sanitiser (`sanitize_for_c64`, both bridges, lines 57–137)

The repository file's curly-quote entries have been collapsed by an
encoding round-trip: both double-quotation-mark entries are literally
`'"': '"'` (a duplicate plain-quote key), and the two single-quotation
entries merge into one dict entry whose key is a multi-character
triple-quoted string — a key that a single-character lookup can never
match, so it is not representable (nor needed) in a `Char`-keyed map. -/

/-- `char_map` lookup.  Keys are the dict's single-character keys,
values the replacement strings. -/
def charMap (c : Char) : Option (List Char) :=
  match c with
  | 'á' | 'à' | 'â' | 'ä' | 'ã' | 'å' => some "A".data
  | 'æ' => some "AE".data
  | 'é' | 'è' | 'ê' | 'ë' => some "E".data
  | 'í' | 'ì' | 'î' | 'ï' => some "I".data
  | 'ó' | 'ò' | 'ô' | 'ö' | 'õ' | 'ø' => some "O".data
  | 'ú' | 'ù' | 'û' | 'ü' => some "U".data
  | 'ý' | 'ÿ' => some "Y".data
  | 'ç' => some "C".data
  | 'ñ' => some "N".data
  | 'Á' | 'À' | 'Â' | 'Ä' | 'Ã' | 'Å' => some "A".data
  | 'Æ' => some "AE".data
  | 'É' | 'È' | 'Ê' | 'Ë' => some "E".data
  | 'Í' | 'Ì' | 'Î' | 'Ï' => some "I".data
  | 'Ó' | 'Ò' | 'Ô' | 'Ö' | 'Õ' | 'Ø' => some "O".data
  | 'Ú' | 'Ù' | 'Û' | 'Ü' => some "U".data
  | 'Ý' => some "Y".data
  | 'Ç' => some "C".data
  | 'Ñ' => some "N".data
  | '—' | '–' => some "-".data
  | '…' => some "...".data
  | '«' | '»' | '"' => some "\"".data
  | '′' => some "'".data
  | '€' => some "EUR".data
  | '£' => some "GBP".data
  | '¥' => some "YEN".data
  | '©' => some "(C)".data
  | '®' => some "(R)".data
  | '™' => some "(TM)".data
  | '°' => some " deg".data
  | '±' => some "+/-".data
  | '×' => some "x".data
  | '÷' => some "/".data
  | '¼' => some "1/4".data
  | '½' => some "1/2".data
  | '¾' => some "3/4".data
  | '•' | '·' => some "*".data
  | '→' => some "->".data
  | '←' => some "<-".data
  | '↑' => some "^".data
  | '↓' => some "v".data
  | _ => none

/-- Python `str.lower()` on the characters the sanitiser can
distinguish: ASCII letters and the uppercase letters whose lowercase
form is a `char_map` key (including `Ÿ → ÿ`); every other character is
unchanged, matching `lower()` on uncased characters (an exotic cased
character lowering to a non-key behaves identically either way: both
fall through to the `ord(c) < 128` test). -/
def pyLower (c : Char) : Char :=
  match c with
  | 'Á' => 'á' | 'À' => 'à' | 'Â' => 'â' | 'Ä' => 'ä' | 'Ã' => 'ã' | 'Å' => 'å'
  | 'Æ' => 'æ'
  | 'É' => 'é' | 'È' => 'è' | 'Ê' => 'ê' | 'Ë' => 'ë'
  | 'Í' => 'í' | 'Ì' => 'ì' | 'Î' => 'î' | 'Ï' => 'ï'
  | 'Ó' => 'ó' | 'Ò' => 'ò' | 'Ô' => 'ô' | 'Ö' => 'ö' | 'Õ' => 'õ' | 'Ø' => 'ø'
  | 'Ú' => 'ú' | 'Ù' => 'ù' | 'Û' => 'û' | 'Ü' => 'ü'
  | 'Ý' => 'ý' | 'Ÿ' => 'ÿ'
  | 'Ç' => 'ç' | 'Ñ' => 'ñ'
  | _ => c.toLower

/-- Python `str.isupper()` on a single character, for the characters the
sanitiser distinguishes: ASCII uppercase and the uppercase accented
letters above. -/
def pyIsUpper (c : Char) : Bool :=
  ('A' ≤ c && c ≤ 'Z') ||
    ['Á', 'À', 'Â', 'Ä', 'Ã', 'Å', 'Æ', 'É', 'È', 'Ê', 'Ë', 'Í', 'Ì', 'Î', 'Ï',
     'Ó', 'Ò', 'Ô', 'Ö', 'Õ', 'Ø', 'Ú', 'Ù', 'Û', 'Ü', 'Ý', 'Ÿ', 'Ç', 'Ñ'].contains c

/-- Python `str.isalpha()` on the (ASCII) replacement strings. -/
def isalphaStr (m : List Char) : Bool :=
  !m.isEmpty && m.all Char.isAlpha

/-- One pass of `text.replace('  ', ' ')`: replace non-overlapping
double spaces left to right. -/
def replaceDoubleSpace : List Char → List Char
  | [] => []
  | ' ' :: ' ' :: rest => ' ' :: replaceDoubleSpace rest
  | c :: rest => c :: replaceDoubleSpace rest

/-- The `while '  ' in text:` loop.  Each pass strictly shortens a text
containing a double space, so `s.length` passes always suffice. -/
def collapseSpacesGo : Nat → List Char → List Char
  | 0, s => s
  | fuel + 1, s =>
    if occursB [' ', ' '] s then collapseSpacesGo fuel (replaceDoubleSpace s) else s

def collapseSpaces (s : List Char) : List Char := collapseSpacesGo s.length s

/-- The per-character mapping of the sanitiser's main loop: a mapped
character uses the replacement (uppercased when the input character is
uppercase and the replacement alphabetic), an unmapped ASCII character
passes through, anything else becomes `?`. -/
def sanitizeChar (c : Char) : List Char :=
  match charMap (pyLower c) with
  | some m => if pyIsUpper c && isalphaStr m then m.map Char.toUpper else m
  | none => if c.toNat < 128 then [c] else ['?']

/-- `sanitize_for_c64(text)`: newlines and returns to spaces, collapse
runs of spaces, then map each character. -/
def sanitize_for_c64 (text : List Char) : List Char :=
  let t := text.map (fun c => if c = '\n' then ' ' else c)
  let t := t.map (fun c => if c = '\r' then ' ' else c)
  let t := collapseSpaces t
  (t.map sanitizeChar).flatten

/-! ## Message processing (`process_user_message`, claude bridge
lines 301–357; the llama variant's error path is identical) -/

/-- Outcome of the generation round-trip inside the `try:` block:
either the extracted `(thinking_text, response_text)` pair or the
exception's `str(e)`. -/
inductive LlmOutcome where
  | success (thinking : Option (List Char)) (text : Option (List Char))
  | failure (err : List Char)
deriving DecidableEq, Repr

/-- What one `process_user_message` call leaves behind: the new
conversation history and the messages handed to `send_thinking_to_c64`
and `send_message_to_c64` (response channel). -/
structure ProcessResult where
  history : List Turn
  sentThinking : Option (List Char)
  sentResponse : Option (List Char)
deriving DecidableEq, Repr

/-- The 200-character cap with trailing ellipsis applied to thinking
text and error messages: `if len(s) > 200: s = s[:197] + "..."`. -/
def truncate200 (s : List Char) : List Char :=
  if 200 < s.length then s.take 197 ++ "...".data else s

/-- The error message surfaced to the device:
`"ERROR: " + sanitize_for_c64(str(e))`, truncated to 200 characters. -/
def errorMessageFor (e : List Char) : List Char :=
  truncate200 ("ERROR: ".data ++ sanitize_for_c64 e)

/-- `process_user_message(message)`: append the user turn, then either
forward the (truncated) thinking and the response — recording the
assistant turn — or, on a terminal error, send the truncated sanitized
`ERROR:` message on the response channel, leaving the history as it was
after the user turn. -/
def process_user_message (history : List Turn) (message : List Char)
    (outcome : LlmOutcome) : ProcessResult :=
  let h1 := add_message_to_history history "user".data message
  match outcome with
  | .success thinking text =>
    let sentTh : Option (List Char) :=
      match thinking with
      | some t => if t ≠ [] then some (truncate200 t) else none
      | none => none
    match text with
    | some rt =>
      if rt ≠ [] then ⟨add_message_to_history h1 "assistant".data rt, sentTh, some rt⟩
      else ⟨h1, sentTh, none⟩
    | none => ⟨h1, sentTh, none⟩
  | .failure e => ⟨h1, none, some (errorMessageFor e)⟩

/-! ## Theorems: inbound poller (C1, C2, C3, C10) -/

/-- A delivery can only happen when the observed length equals the
previously observed length, the status byte is `NONE` or `LAST`, and at
least the debounce window has elapsed since the last timer reset. -/
theorem pollStep_deliver_conditions (st : PollState) (o : Obs) (m : List Nat)
    (h : (pollStep st o).2 = some m) :
    o.length = st.last_data_length ∧ (o.status = 0 ∨ o.status = 2) ∧
      DEBOUNCE_TIME ≤ o.time - st.last_change_time := by
  unfold pollStep at h
  split_ifs at h with h1 h2 h3 h4
  push_neg at h2
  exact ⟨h2.1, h4, by omega⟩

/-- A delivered message is the 255-filtered concatenation of the
accumulator and the chunk just read. -/
theorem pollStep_deliver_eq (st : PollState) (o : Obs) (m : List Nat)
    (h : (pollStep st o).2 = some m) :
    m = (st.full_message ++ o.payload.take o.length).filter (fun b => b ≠ 255) := by
  unfold pollStep at h
  split_ifs at h with h1 h2 h3 h4
  simp only at h
  exact (Option.some_injective _ h).symm

/-- `pollStep` never puts the junk byte 255 in a delivered message. -/
theorem pollStep_no_255 (st : PollState) (o : Obs) (m : List Nat)
    (h : (pollStep st o).2 = some m) : (255 : Nat) ∉ m := by
  intro hm
  rw [pollStep_deliver_eq st o m h] at hm
  have := (List.mem_filter.mp hm).2
  simp at this

/-- Every message a poll run delivers comes from a `pollStep` delivery. -/
theorem pollRun_deliveries (os : List Obs) :
    ∀ (st : PollState) (m : List Nat), m ∈ (pollRun st os).2 →
      ∃ st' o, (pollStep st' o).2 = some m := by
  induction os with
  | nil => intro st m hm; simp [pollRun] at hm
  | cons o os ih =>
    intro st m hm
    simp only [pollRun, List.mem_append] at hm
    rcases hm with hm | hm
    · rcases ho : (pollStep st o).2 with _ | d
      · rw [ho] at hm; simp at hm
      · rw [ho] at hm; simp at hm; subst hm; exact ⟨st, o, ho⟩
    · exact ih _ m hm

/-- The accumulator is empty again after every step that starts with an
empty accumulator: each payload read is immediately sealed and
delivered (the status guard admits only `NONE`/`LAST` to the read). -/
theorem pollStep_preserves_empty (st : PollState) (o : Obs)
    (h : st.full_message = []) : (pollStep st o).1.full_message = [] := by
  unfold pollStep
  split_ifs with h1 h2 h3 h4
  · exact h
  · exact h
  · rfl
  · push_neg at h2
    exact absurd (by tauto : o.status = 0 ∨ o.status = 2) h4
  · exact h
  · exact h

/-- In every state reachable from startup the accumulator is empty at
the top of the loop. -/
theorem pollRun_empty_accumulator (os : List Obs) :
    ∀ st : PollState, st.full_message = [] → (pollRun st os).1.full_message = [] := by
  induction os with
  | nil => intro st h; exact h
  | cons o os ih => intro st h; exact ih _ (pollStep_preserves_empty st o h)

/-- **C1.** For every chunk sequence whose status bytes are
`MORE,…,MORE,LAST`, the poller's reassembled message should equal the
concatenation of the chunk payloads in write order, the poller reading
and acknowledging each `MORE` chunk and staying in accumulation.  The
code does not do this: the debounce condition
`length != last_data_length or (status != 0 and status != 2)` restarts
the timer on *every* poll that observes status `MORE`, so a `MORE`
chunk is never read (cf. `pollStep_deliver_conditions`: a read requires
status 0 or 2) and the accumulation branch is dead.  Evaluating the
embedded loop on a two-chunk sequence — chunk "A" (length 1, status
`MORE`) observed at two consecutive polls, then chunk "B" (length 1,
status `LAST`) — delivers only `"B"` (byte 66), not the concatenation
`"AB"` (bytes 65, 66). -/
theorem claim_C1_more_chunks_never_read :
    (pollRun initPollState
        [⟨1, 1, [65], 1000⟩, ⟨1, 1, [65], 2000⟩, ⟨1, 2, [66], 3000⟩]).2 = [[66]] ∧
      ([[66]] : List (List Nat)) ≠ [[65, 66]] := by
  decide

/-- **C2 (counterexample).** The claim says a chunk header (length and
status) that changes value during the debounce window resets the timer,
and that the payload is not read until both have been observed
unchanged for a full window.  In the run below the status byte changes
between the two polls (`MORE` at t=0ms, `LAST` at t=500ms) with the
length stable at 5; the code does not reset the timer for this header
change and reads the payload at the very poll that first observes the
new status. -/
theorem claim_C2_counterexample :
    (pollRun initPollState
        [⟨5, 1, [72, 69, 76, 76, 79], 0⟩, ⟨5, 2, [72, 69, 76, 76, 79], 500⟩]).2
      = [[72, 69, 76, 76, 79]] ∧ (1 : Nat) ≠ 2 := by
  decide

/-- **C2 (amended).** Only a change of the observed *length* byte resets
the debounce timer (and any observation with status `MORE` restarts it
as well); the payload is read only when the observed length equals the
previously observed length, the status is `NONE` or `LAST`, and at
least the debounce window has elapsed since the last reset.  A status
change with unchanged length does not reset the timer.  In particular a
length byte observed as 5, then 0, then 5 never yields a payload read
at those three polls, whatever the statuses and poll times. -/
theorem claim_C2_amended :
    (∀ (st : PollState) (o : Obs), 0 < o.length → o.length ≤ 255 →
        o.length ≠ st.last_data_length →
        pollStep st o
          = ({ st with last_change_time := o.time, last_data_length := o.length }, none)) ∧
    (∀ (st : PollState) (o : Obs) (m : List Nat), (pollStep st o).2 = some m →
        o.length = st.last_data_length ∧ (o.status = 0 ∨ o.status = 2) ∧
          DEBOUNCE_TIME ≤ o.time - st.last_change_time) ∧
    (∀ (s1 s2 s3 t1 t2 t3 : Nat) (p1 p2 p3 : List Nat),
        (pollRun initPollState
            [⟨5, s1, p1, t1⟩, ⟨0, s2, p2, t2⟩, ⟨5, s3, p3, t3⟩]).2 = []) := by
  refine ⟨fun st o h1 h2 h3 => ?_, pollStep_deliver_conditions, fun s1 s2 s3 t1 t2 t3 p1 p2 p3 => ?_⟩
  · unfold pollStep
    rw [if_pos ⟨h1, h2⟩, if_pos (Or.inl h3)]
  · simp [pollRun, pollStep, initPollState]

/-- Witness for `claim_C2_amended`: a first observation of length 5 from
the startup state resets the debounce timer and reads nothing; a stable
length-5 `LAST` observation after a full window is read; the concrete
5, 0, 5 length sequence delivers nothing. -/
theorem claim_C2_witness :
    (pollStep initPollState ⟨5, 0, [1, 2, 3, 4, 5], 700⟩
        = ({ initPollState with last_change_time := 700, last_data_length := 5 }, none)) ∧
      ((5 : Nat) = 5 ∧ ((2 : Nat) = 0 ∨ (2 : Nat) = 2) ∧ DEBOUNCE_TIME ≤ 600 - 0) ∧
      (pollRun initPollState [⟨5, 0, [1], 0⟩, ⟨0, 0, [], 500⟩, ⟨5, 0, [1], 1000⟩]).2 = [] :=
  ⟨claim_C2_amended.1 initPollState ⟨5, 0, [1, 2, 3, 4, 5], 700⟩
      (by decide) (by decide) (by decide),
   claim_C2_amended.2.1 ⟨[], 0, 5⟩ ⟨5, 2, [1, 2, 3, 4, 5], 600⟩ [1, 2, 3, 4, 5] (by decide),
   claim_C2_amended.2.2 0 0 0 0 500 1000 [1] [] [1]⟩

/-- **C3 (counterexample).** The claim says that observing a length byte
of 0 while a message is partially accumulated resets the accumulator.
The code's `else:` branch resets only `last_data_length` and
`last_change_time`; from a state whose accumulator holds byte 65 the
step leaves the accumulator untouched. -/
theorem claim_C3_counterexample :
    (pollStep ⟨[65], 0, 3⟩ ⟨0, 0, [], 1000⟩).1.full_message = [65] ∧
      ([65] : List Nat) ≠ [] := by
  decide

/-- **C3 (amended).** Observing a length byte of 0 resets only the
debounce-tracking variables (when a nonzero length had been seen) and
never touches the accumulator or delivers anything; nevertheless, in
every state reachable from startup the accumulator is empty at the top
of the poll loop — each payload read is immediately sealed and
delivered — so no partially accumulated text exists that could leak
into a later delivered message. -/
theorem claim_C3_amended :
    (∀ (st : PollState) (o : Obs), o.length = 0 →
        (pollStep st o).1.full_message = st.full_message ∧
          (pollStep st o).2 = none ∧
          (0 < st.last_data_length →
            (pollStep st o).1.last_data_length = 0 ∧
              (pollStep st o).1.last_change_time = 0)) ∧
    (∀ os : List Obs, (pollRun initPollState os).1.full_message = []) := by
  constructor
  · intro st o h
    unfold pollStep
    rw [if_neg (by omega)]
    split_ifs with h1
    · exact ⟨rfl, rfl, fun _ => ⟨rfl, rfl⟩⟩
    · exact ⟨rfl, rfl, fun h2 => absurd h2 h1⟩
  · intro os
    exact pollRun_empty_accumulator os initPollState rfl

/-- Witness for `claim_C3_amended`: a zero-length observation from a
state that had seen length 3 clears the debounce variables, keeps the
(empty-at-startup) accumulator and delivers nothing. -/
theorem claim_C3_witness :
    (pollStep ⟨[], 400, 3⟩ ⟨0, 1, [9], 900⟩).1.full_message = [] ∧
      (pollStep ⟨[], 400, 3⟩ ⟨0, 1, [9], 900⟩).2 = none ∧
      (0 < 3 →
        (pollStep ⟨[], 400, 3⟩ ⟨0, 1, [9], 900⟩).1.last_data_length = 0 ∧
          (pollStep ⟨[], 400, 3⟩ ⟨0, 1, [9], 900⟩).1.last_change_time = 0) :=
  (claim_C3_amended.1 ⟨[], 400, 3⟩ ⟨0, 1, [9], 900⟩ (by decide))

/-- **C10.** Every logical message the poller delivers to the
orchestrator contains no byte 255 (the character `ÿ`): after appending
each chunk the code strips all its occurrences
(`full_message.replace('ÿ', '')`), so a payload byte 255 never appears
in a delivered message. -/
theorem claim_C10_no_junk_byte (os : List Obs) (m : List Nat)
    (h : m ∈ (pollRun initPollState os).2) : (255 : Nat) ∉ m := by
  obtain ⟨st', o, ho⟩ := pollRun_deliveries os initPollState m h
  exact pollStep_no_255 st' o m ho

/-- Witness for `claim_C10_no_junk_byte`: a run that delivers the
chunk `[65, 255, 66]` as the message `[65, 66]`, free of byte 255. -/
theorem claim_C10_witness : (255 : Nat) ∉ [65, 66] :=
  claim_C10_no_junk_byte [⟨3, 0, [65, 255, 66], 0⟩, ⟨3, 0, [65, 255, 66], 500⟩]
    [65, 66] (by decide)

/-! ## Theorems: thinking extraction (C4) -/

/-- Unfolding of the substring test on a cons cell. -/
theorem occursB_cons_false {pat : List Char} {c : Char} {rest : List Char}
    (h : occursB pat (c :: rest) = false) :
    pat.isPrefixOf (c :: rest) = false ∧ occursB pat rest = false := by
  have := h
  unfold occursB at this
  exact Bool.or_eq_false_iff.mp this

/-- If `pat` does not occur in `s`, the first-occurrence scan fails. -/
theorem splitFirst_eq_none {pat s : List Char} (h : occursB pat s = false) :
    splitFirst pat s = none := by
  induction s with
  | nil =>
    unfold occursB at h
    unfold splitFirst
    rw [if_neg (by simp [h])]
  | cons c rest ih =>
    obtain ⟨h1, h2⟩ := occursB_cons_false h
    unfold splitFirst
    rw [if_neg (by simp [h1]), ih h2]

/-- Pass 1 leaves a text without `<think>` untouched. -/
theorem pass1Go_id {s : List Char} (h : occursB thinkOpen s = false) (fuel : Nat) :
    pass1Go fuel s = ([], s) := by
  cases fuel with
  | zero => rfl
  | succ n => unfold pass1Go; rw [splitFirst_eq_none h]

/-- Pass 2 leaves a text without `</think>` untouched. -/
theorem pass2Go_id {s : List Char} (h : occursB thinkClose s = false) (fuel : Nat) :
    pass2Go fuel s = ([], s) := by
  cases fuel with
  | zero => rfl
  | succ n => unfold pass2Go; rw [splitFirst_eq_none h]

/-- Pass 3 leaves a text without `<think>` untouched. -/
theorem pass3Go_id {s : List Char} (h : occursB thinkOpen s = false) (fuel : Nat) :
    pass3Go fuel s = ([], s) := by
  cases fuel with
  | zero => rfl
  | succ n => unfold pass3Go; rw [splitFirst_eq_none h]

/-- The final tag cleanup leaves a text without tags untouched. -/
theorem stripTagsGo_id {s : List Char} (h1 : occursB thinkOpen s = false)
    (h2 : occursB thinkClose s = false) (fuel : Nat) :
    stripTagsGo fuel s = s := by
  induction fuel generalizing s with
  | zero => rfl
  | succ n ih =>
    cases s with
    | nil => rfl
    | cons c rest =>
      obtain ⟨ho1, ho2⟩ := occursB_cons_false h1
      obtain ⟨hc1, hc2⟩ := occursB_cons_false h2
      unfold stripTagsGo
      rw [if_neg (by simp [ho1]), if_neg (by simp [hc1]), ih ho2 hc2]

/-- **C4 (counterexample).** The claim says an input containing neither
marker yields the original input unchanged as the answer.  The code
ends with `.strip()`, so the whitespace-padded marker-free input
`" A "` comes back as `"A"`, not unchanged. -/
theorem claim_C4_counterexample :
    extract_thinking " A ".data = (none, "A".data) ∧ "A".data ≠ " A ".data := by
  decide

/-- **C4 (amended).** The extraction applies, in order, the
balanced-pair pass, the orphan-close pass and the orphan-open pass.
`"<think>A</think>answer"` yields `(thinking = "A", answer = "answer")`;
the orphaned close `"A</think>answer"` yields the same; the orphaned,
unterminated open `"answer<think>B"` yields
`(thinking = "B", answer = "answer")`; and every input containing
neither `"<think>"` nor `"</think>"` yields `thinking = None` with the
answer equal to the input *stripped of leading and trailing whitespace*
(hence unchanged exactly when the input has no such whitespace). -/
theorem claim_C4_extract_thinking :
    extract_thinking "<think>A</think>answer".data = (some "A".data, "answer".data) ∧
    extract_thinking "A</think>answer".data = (some "A".data, "answer".data) ∧
    extract_thinking "answer<think>B".data = (some "B".data, "answer".data) ∧
    (∀ s : List Char, occursB thinkOpen s = false → occursB thinkClose s = false →
        extract_thinking s = (none, pyStrip s)) := by
  refine ⟨by decide, by decide, by decide, fun s h1 h2 => ?_⟩
  simp [extract_thinking, pass1, pass2, pass3, stripTags,
    pass1Go_id h1, pass2Go_id h2, pass3Go_id h1, stripTagsGo_id h1 h2]

/-- Witness for `claim_C4_extract_thinking`: the marker-free input
`"hello"` passes through with no thinking and a stripped (here
unchanged) answer. -/
theorem claim_C4_witness : extract_thinking "hello".data = (none, pyStrip "hello".data) :=
  claim_C4_extract_thinking.2.2.2 "hello".data (by decide) (by decide)

/-! ## Theorems: generation clients (C5, C6) -/

/-- A substring of the tail is a substring of the whole. -/
theorem occursB_append_right (pat a : List Char) {b : List Char}
    (h : occursB pat b = true) : occursB pat (a ++ b) = true := by
  induction a with
  | nil => simpa
  | cons c a ih => simp [occursB, ih]

/-- If a pattern occurs, so does any prefix of that pattern. -/
theorem occursB_of_prefix {p q : List Char} (hpq : p.isPrefixOf q = true)
    {s : List Char} (h : occursB q s = true) : occursB p s = true := by
  have hpq2 : p <+: q := List.isPrefixOf_iff_prefix.mp hpq
  induction s with
  | nil =>
    unfold occursB at h ⊢
    exact List.isPrefixOf_iff_prefix.mpr
      (hpq2.trans (List.isPrefixOf_iff_prefix.mp h))
  | cons c rest ih =>
    unfold occursB at h ⊢
    rcases Bool.or_eq_true_iff.mp h with h1 | h2
    · exact Bool.or_eq_true_iff.mpr (Or.inl (List.isPrefixOf_iff_prefix.mpr
        (hpq2.trans (List.isPrefixOf_iff_prefix.mp h1))))
    · simp [ih h2]

/-- **C5.** For a service behaviour that answers with a retryable error
on the first two requests and succeeds on the third, both clients issue
exactly 3 requests, sleep 1000 ms before the first retry and 2000 ms
(twice as long, per the doubling backoff that starts at the configured
1000 ms with at most `max_retries = 3` retries) before the second, and
return the successful result — the response JSON for the Claude client,
the assembled stream for the llama.cpp client. -/
theorem claim_C5_retry_backoff :
    (∀ (c1 : Nat) (b1 : List Char) (c2 : Nat) (b2 : List Char) (body : List Char)
        (rest : List ClaudeResp),
        claudeShouldRetry c1 b1 = true → claudeShouldRetry c2 b2 = true →
        claudeSend (.err c1 b1 :: .err c2 b2 :: .ok body :: rest)
          = some ⟨.ok body, 3, [1000, 2000]⟩) ∧
    (∀ (c1 c2 : Nat) (b1 b2 : List Char) (lines : List SSE) (rest : List LlamaResp),
        llamaShouldRetry c1 = true → llamaShouldRetry c2 = true →
        llamaSend (.err c1 b1 :: .err c2 b2 :: .ok lines :: rest)
          = some ⟨.ok (assembleStream lines []), 3, [1000, 2000]⟩) := by
  constructor
  · intro c1 b1 c2 b2 body rest h1 h2
    simp [claudeSend, claudeSendLoop, h1, h2]
  · intro c1 c2 b1 b2 lines rest h1 h2
    simp [llamaSend, llamaSendLoop, h1, h2]

/-- Witness for `claim_C5_retry_backoff`: rate-limit (429) then
overload (529 resp. 503) then success. -/
theorem claim_C5_witness :
    claudeSend [.err 429 [], .err 529 [], .ok "ok".data]
        = some ⟨.ok "ok".data, 3, [1000, 2000]⟩ ∧
      llamaSend [.err 429 [], .err 503 [], .ok [.data (some "hi".data) true]]
        = some ⟨.ok (assembleStream [.data (some "hi".data) true] []), 3, [1000, 2000]⟩ :=
  ⟨claim_C5_retry_backoff.1 429 [] 529 [] "ok".data [] (by decide) (by decide),
   claim_C5_retry_backoff.2 429 503 [] [] [.data (some "hi".data) true] [] (by decide) (by decide)⟩

/-- **C6 (counterexample).** The claim says a non-retryable error makes
"the generation client" issue exactly 1 request and raise immediately
with no backoff sleeps.  The llama.cpp bridge client catches its own
non-retryable raise in its blanket `except` clause and retries it: on a
permanent HTTP 400 it issues 4 requests with backoff sleeps of 1000,
2000 and 4000 ms before the terminal error. -/
theorem claim_C6_counterexample :
    llamaSend [.err 400 "bad".data, .err 400 "bad".data, .err 400 "bad".data,
        .err 400 "bad".data]
      = some ⟨.error ("Error communicating with llama.cpp server: ".data
            ++ llamaExMsg 400 "bad".data), 4, [1000, 2000, 4000]⟩ ∧ (4 : Nat) ≠ 1 := by
  decide

/-- **C6 (amended).** On a non-retryable error the Claude bridge client
issues exactly 1 request and raises a terminal error immediately, with
no retries and no backoff sleeps (non-retryable: status not 429/529 and
an error message carrying no `overloaded` signal).  The llama.cpp
bridge client instead retries *any* failure, non-retryable HTTP errors
included: it issues 4 requests with backoff sleeps 1000, 2000 and
4000 ms before raising the terminal error. -/
theorem claim_C6_nonretryable :
    (∀ (code : Nat) (body : List Char) (rest : List ClaudeResp),
        code ≠ 429 → code ≠ 529 →
        occursB "overloaded".data (claudeExMsg code body) = false →
        claudeSend (.err code body :: rest)
          = some ⟨.error ("Error communicating with Claude API: ".data
                ++ claudeExMsg code body), 1, []⟩) ∧
    (∀ (code : Nat) (b1 b2 b3 b4 : List Char) (rest : List LlamaResp),
        llamaShouldRetry code = false →
        llamaSend (.err code b1 :: .err code b2 :: .err code b3 :: .err code b4 :: rest)
          = some ⟨.error ("Error communicating with llama.cpp server: ".data
                ++ llamaExMsg code b4), 4, [1000, 2000, 4000]⟩) := by
  constructor
  · intro code body rest h1 h2 h3
    have hoe : occursB "overloaded_error".data body = false := by
      by_contra hc
      rw [Bool.not_eq_false] at hc
      have hov : occursB "overloaded".data body = true :=
        occursB_of_prefix (by decide) hc
      have : occursB "overloaded".data (claudeExMsg code body) = true :=
        occursB_append_right _ _ hov
      rw [h3] at this
      exact Bool.false_ne_true this
    have hsr : claudeShouldRetry code body = false := by
      simp [claudeShouldRetry, beq_iff_eq, h1, h2, hoe]
    simp [claudeSend, claudeSendLoop, hsr, h3]
  · intro code b1 b2 b3 b4 rest hsr
    simp [llamaSend, llamaSendLoop, hsr]

/-- Witness for `claim_C6_nonretryable`: an HTTP 401 with body
`"auth"` for the Claude client, an HTTP 400 with body `"bad"` for the
llama.cpp client. -/
theorem claim_C6_witness :
    claudeSend [.err 401 "auth".data]
        = some ⟨.error ("Error communicating with Claude API: ".data
              ++ claudeExMsg 401 "auth".data), 1, []⟩ ∧
      llamaSend [.err 400 "b1".data, .err 400 "b2".data, .err 400 "b3".data, .err 400 "b4".data]
        = some ⟨.error ("Error communicating with llama.cpp server: ".data
              ++ llamaExMsg 400 "b4".data), 4, [1000, 2000, 4000]⟩ :=
  ⟨claim_C6_nonretryable.1 401 "auth".data [] (by decide) (by decide) (by decide),
   claim_C6_nonretryable.2 400 "b1".data "b2".data "b3".data "b4".data [] (by decide)⟩

/-! ## Theorems: conversation history (C7) -/

/-- Appending always leaves the history at `min (previous + 1) 10`
turns. -/
theorem add_message_to_history_length (h : List Turn) (r c : List Char) :
    (add_message_to_history h r c).length = min (h.length + 1) 10 := by
  unfold add_message_to_history MAX_HISTORY_LENGTH
  dsimp only
  split_ifs with h1 <;> simp_all
  omega

/-- Any run of appends from a history within the cap stays within the
cap. -/
theorem history_foldl_length_le (l : List (List Char × List Char)) :
    ∀ h : List Turn, h.length ≤ 10 →
      (l.foldl (fun acc rc => add_message_to_history acc rc.1 rc.2) h).length ≤ 10 := by
  induction l with
  | nil => intro h hh; simpa
  | cons x l ih =>
    intro h hh
    exact ih _ (by rw [add_message_to_history_length]; omega)

/-- **C7.** After any finite sequence of appends the conversation
history holds at most 10 turns; each append produces a suffix of the
old history plus the new turn, so trimming removes only the oldest
turns and preserves the relative order of the rest; and appending
turns 1 through 11 to an empty history leaves exactly turns 2 through
11 in their original relative order. -/
theorem claim_C7_history_cap :
    (∀ rcs : List (List Char × List Char),
        (rcs.foldl (fun acc rc => add_message_to_history acc rc.1 rc.2) []).length ≤ 10) ∧
    (∀ (h : List Turn) (r c : List Char),
        add_message_to_history h r c <:+ h ++ [⟨r, c⟩]) ∧
    ((List.foldl (fun acc rc => add_message_to_history acc rc.1 rc.2) []
          ((List.range 11).map (fun i => ("u".data, (Nat.repr (i + 1)).data)))).map Turn.content
      = (List.range 10).map (fun i => (Nat.repr (i + 2)).data)) := by
  refine ⟨fun rcs => history_foldl_length_le rcs [] (by simp), fun h r c => ?_, by decide⟩
  unfold add_message_to_history
  dsimp only
  split_ifs with h1
  · exact List.drop_suffix _ _
  · exact List.suffix_refl _

/-! ## Theorems: mailbox chunk codec (C8) -/

/-- **C8.** Encoding a byte sequence of length at most 240 as a chunk —
one length byte followed by the payload bytes (`ord(c) & 0xFF`) — and
decoding the chunk — taking exactly the declared number of payload
bytes — recovers the original sequence exactly.  Both directions are
total functions on arbitrary byte values 0–255 (neither raises). -/
theorem claim_C8_roundtrip (msg : List Nat) (_hlen : msg.length ≤ 240)
    (hbytes : ∀ b ∈ msg, b < 256) : decodeChunk (encodeChunk msg) = msg := by
  unfold decodeChunk encodeChunk
  simp only [List.tail_cons, List.headD_cons]
  rw [List.take_of_length_le (by simp)]
  have hmap : msg.map (fun b => b % 256) = msg.map (fun b => b) :=
    List.map_congr_left fun b hb => Nat.mod_eq_of_lt (hbytes b hb)
  rw [hmap, List.map_id']

/-- Witness for `claim_C8_roundtrip`: the chunk `[72, 255, 0]` (three
bytes, one of them ≥ 128) round-trips. -/
theorem claim_C8_witness : decodeChunk (encodeChunk [72, 255, 0]) = [72, 255, 0] :=
  claim_C8_roundtrip [72, 255, 0] (by decide) (by decide)

/-! ## Theorems: terminal-error surfacing (C9) -/

/-- The turn just appended is always present in the trimmed history. -/
theorem mem_add_message_to_history (h : List Turn) (r c : List Char) :
    (⟨r, c⟩ : Turn) ∈ add_message_to_history h r c := by
  unfold add_message_to_history
  dsimp only
  split_ifs with h1
  · rw [List.drop_append_eq_append_drop]
    simp only [List.length_append, List.length_cons, List.length_nil] at h1 ⊢
    have : h.length + 1 - MAX_HISTORY_LENGTH - h.length = 0 := by
      unfold MAX_HISTORY_LENGTH at h1 ⊢
      omega
    rw [this]
    simp
  · simp

/-- The surfaced error message starts with `"ERROR: "` and is at most
200 characters long. -/
theorem errorMessageFor_spec (e : List Char) :
    "ERROR: ".data <+: errorMessageFor e ∧ (errorMessageFor e).length ≤ 200 := by
  unfold errorMessageFor truncate200
  split_ifs with h1
  · constructor
    · rw [List.take_append_eq_append_take]
      rw [List.take_of_length_le (by simp)]
      rw [List.append_assoc]
      exact List.prefix_append _ _
    · have h3 : ("...".data : List Char).length = 3 := by decide
      simp only [List.length_append, List.length_take, h3]
      omega
  · exact ⟨List.prefix_append _ _, by omega⟩

/-- **C9.** When processing a logical message ends in a terminal
service error, the message handed to the device's response channel is
`"ERROR: " + sanitize_for_c64(str(e))` truncated to at most 200
characters (so it begins with `ERROR: `), nothing is sent on the
thinking channel, and the conversation history is not rolled back: it
is exactly the history with the user turn appended, and that user turn
is present even though no assistant turn was added. -/
theorem claim_C9_terminal_error (history : List Turn) (message e : List Char) :
    (process_user_message history message (.failure e)).sentResponse
        = some (errorMessageFor e) ∧
      "ERROR: ".data <+: errorMessageFor e ∧
      (errorMessageFor e).length ≤ 200 ∧
      (process_user_message history message (.failure e)).sentThinking = none ∧
      (process_user_message history message (.failure e)).history
        = add_message_to_history history "user".data message ∧
      (⟨"user".data, message⟩ : Turn)
        ∈ (process_user_message history message (.failure e)).history :=
  ⟨rfl, (errorMessageFor_spec e).1, (errorMessageFor_spec e).2, rfl, rfl,
    mem_add_message_to_history history "user".data message⟩

end C64Bridge

